import Mathlib

/-!
Verification development for the `async-minecraft-ping` repository: a client
for the Minecraft ServerListPing status protocol.

The development shallowly embeds the repository's two layers:

* the protocol layer (VarInt codec, packet framing, packet shapes) — the
  repository's `protocol` module is referenced from `src/server.rs` but its
  source file is not part of the snapshot, so those definitions are modelled
  from the specification's description of it;
* the server layer (`src/server.rs`) — error type, JSON data model with its
  serde attributes, the connection builder, and the `status_raw` / `status`
  sequencer, translated directly from the source.

Machine integers are modelled as `Nat`; bytes are `Nat` values below 256; the
TCP stream is modelled as an explicit state (bytes available for reading,
bytes written so far, and an optional write budget modelling transport-level
write failures).
-/

/-- Decidable equality for `Except`, needed to evaluate codec results on
concrete inputs. -/
instance {ε α : Type} [DecidableEq ε] [DecidableEq α] : DecidableEq (Except ε α) :=
  fun a b =>
    match a, b with
    | .ok x, .ok y => if h : x = y then .isTrue (by rw [h]) else .isFalse (by simp [h])
    | .error x, .error y => if h : x = y then .isTrue (by rw [h]) else .isFalse (by simp [h])
    | .ok _, .error _ => .isFalse (by simp)
    | .error _, .ok _ => .isFalse (by simp)

/-- The UTF-8 byte sequence of a string (Rust `String`s are UTF-8; the
handshake packet writes the address's UTF-8 bytes). -/
def utf8Bytes (s : String) : List Nat :=
  s.data.flatMap (fun c => (String.utf8EncodeChar c).map UInt8.toNat)

/-- Modelled from the spec: the error kinds of the repository's `protocol`
module (`protocol::ProtocolError`), whose source file is missing from the
snapshot; the kinds are the spec's §7 taxonomy of codec-level conditions. -/
inductive ProtocolError where
  | malformedVarInt
  | unexpectedEof
  | packetTooLarge
  | unexpectedPacketId
  | ioError
  deriving DecidableEq, Repr

/-- `ServerError` from `src/server.rs` (lines 11–21): three variants only;
`InvalidJson` carries the JSON decoder's error (modelled as its message). -/
inductive ServerError where
  | protocolError
  | failedToConnect
  | invalidJson (msg : String)
  deriving DecidableEq, Repr

/-- The `From<protocol::ProtocolError> for ServerError` impl from
`src/server.rs` (lines 23–27): it ignores the incoming kind and always
produces `ServerError::ProtocolError`. -/
def ServerError.fromProtocolError (_e : ProtocolError) : ServerError :=
  ServerError.protocolError

/-- The `anyhow::Error` values produced by the server layer: either a
context-wrapped protocol error (from `.context(...)` in `status_raw`, which
keeps the underlying `ProtocolError` in the error chain) or a `ServerError`
converted by `?`. -/
inductive AppError where
  | protocol (context : String) (e : ProtocolError)
  | server (e : ServerError)
  deriving DecidableEq, Repr

/-- Modelled from the spec: VarInt encoding (§3, §4.1) of the missing
`protocol` module — 7 payload bits per byte, low bits first, high bit of a
byte set when more bytes follow. -/
def varintEncode (v : Nat) : List Nat :=
  if h : v < 128 then [v] else (v % 128 + 128) :: varintEncode (v / 128)
termination_by v
decreasing_by omega

/-- Modelled from the spec: the VarInt decoding loop (§4.1) of the missing
`protocol` module. `count` bytes have been consumed so far contributing
`acc`; a byte with its continuation bit clear terminates; reading a 5th byte
whose continuation bit is still set fails with `MalformedVarInt`; running out
of bytes fails with `UnexpectedEof`. -/
def varintDecodeAux : List Nat → Nat → Nat → Except ProtocolError (Nat × Nat)
  | [], _, _ => .error .unexpectedEof
  | b :: rest, count, acc =>
    if b < 128 then .ok (acc + b * 128 ^ count, count + 1)
    else if count + 1 ≥ 5 then .error .malformedVarInt
    else varintDecodeAux rest (count + 1) (acc + b % 128 * 128 ^ count)

/-- Modelled from the spec: VarInt decoding; returns the value and the number
of bytes consumed. -/
def varintDecode (bytes : List Nat) : Except ProtocolError (Nat × Nat) :=
  varintDecodeAux bytes 0 0

/-- The transport stream: bytes the server will deliver, bytes written so
far, and an optional budget of bytes the transport still accepts (`none` =
writes always succeed; exceeding a `some` budget models a transport write
failure). -/
structure TcpStream where
  input : List Nat
  output : List Nat
  writeFuel : Option Nat
  deriving DecidableEq, Repr

/-- Modelled from the spec: writing raw bytes to the transport (§6, §4.2);
succeeds appending the bytes to the wire, or fails with `IoError` when the
transport rejects the write. -/
def writeBytes (s : TcpStream) (bs : List Nat) : Except ProtocolError TcpStream :=
  match s.writeFuel with
  | none => .ok { s with output := s.output ++ bs }
  | some fuel =>
    if bs.length ≤ fuel then
      .ok { s with output := s.output ++ bs, writeFuel := some (fuel - bs.length) }
    else .error .ioError

/-- The on-wire frame of a packet body: VarInt length followed by the body
(§4.2 write path). -/
def frame (body : List Nat) : List Nat :=
  varintEncode body.length ++ body

/-- Modelled from the spec: `write_packet` (§4.2) — write the VarInt length
of the body, then the body. -/
def writePacket (s : TcpStream) (body : List Nat) : Except ProtocolError TcpStream :=
  writeBytes s (frame body)

/-- Modelled from the spec: `read_packet` (§4.2) — read a VarInt length
`len`, then exactly `len` body bytes, failing with `UnexpectedEof` if the
stream ends first.  Per §9 the source imposes no cap on `len`. -/
def readPacket (s : TcpStream) : Except ProtocolError (List Nat × TcpStream) :=
  match varintDecode s.input with
  | .error e => .error e
  | .ok (len, consumed) =>
    let rest := s.input.drop consumed
    if rest.length < len then .error .unexpectedEof
    else .ok (rest.take len, { s with input := rest.drop len })

/-- Modelled from the spec: the serialized Handshake packet body (§4.3, §8) —
id 0x00, protocol version VarInt, VarInt-length-prefixed UTF-8 address,
big-endian 16-bit port, and the fixed status next-state value 1. -/
def handshakeBody (protocolVersion : Nat) (address : String) (port : Nat) : List Nat :=
  varintEncode 0 ++ varintEncode protocolVersion ++
    varintEncode (utf8Bytes address).length ++ utf8Bytes address ++
    [port / 256 % 256, port % 256] ++ varintEncode 1

/-- Modelled from the spec: the serialized Request packet body (§4.3) — just
the id 0x00, no fields. -/
def requestBody : List Nat :=
  varintEncode 0

/-- Modelled from the spec: Response packet deserialization (§4.3) — read the
leading VarInt id, require it to be 0x00 (else `UnexpectedPacketId`), read
the VarInt-length-prefixed string body, ignore trailing bytes. -/
def responseDeserialize (body : List Nat) : Except ProtocolError (List Nat) :=
  match varintDecode body with
  | .error e => .error e
  | .ok (id, c1) =>
    if id = 0 then
      let rest := body.drop c1
      match varintDecode rest with
      | .error e => .error e
      | .ok (len, c2) =>
        let rest2 := rest.drop c2
        if rest2.length < len then .error .unexpectedEof
        else .ok (rest2.take len)
    else .error .unexpectedPacketId

/-! ### VarInt codec lemmas -/

theorem varintEncode_ne_nil (v : Nat) : varintEncode v ≠ [] := by
  rw [varintEncode]
  by_cases h : v < 128
  · rw [dif_pos h]; simp
  · rw [dif_neg h]; simp

theorem varintDecodeAux_append_encode (v : Nat) :
    ∀ (count acc : Nat) (rest : List Nat), count < 5 → v < 2 ^ (7 * (5 - count)) →
      varintDecodeAux (varintEncode v ++ rest) count acc
        = .ok (acc + v * 128 ^ count, count + (varintEncode v).length) := by
  induction v using Nat.strong_induction_on with
  | _ v ih =>
    intro count acc rest hcount hv
    by_cases h : v < 128
    · rw [varintEncode, dif_pos h]
      show varintDecodeAux (v :: rest) count acc = _
      rw [varintDecodeAux]
      simp [h]
    · rw [varintEncode, dif_neg h]
      show varintDecodeAux ((v % 128 + 128) :: (varintEncode (v / 128) ++ rest)) count acc = _
      have hcount4 : count < 4 := by
        rcases Nat.lt_or_ge count 4 with hc | hc
        · exact hc
        · exfalso
          have hceq : count = 4 := by omega
          subst hceq
          norm_num at hv
          omega
      have hb : ¬ (v % 128 + 128 < 128) := by omega
      rw [varintDecodeAux, if_neg hb, if_neg (by omega : ¬ count + 1 ≥ 5)]
      have hv' : v / 128 < 2 ^ (7 * (5 - (count + 1))) := by
        have hsplit : 7 * (5 - count) = 7 * (5 - (count + 1)) + 7 := by omega
        rw [hsplit, pow_add] at hv
        have h128 : (2 : Nat) ^ 7 = 128 := by norm_num
        rw [h128] at hv
        exact Nat.div_lt_of_lt_mul (by linarith [hv])
      have ihres := ih (v / 128) (Nat.div_lt_self (by omega) (by omega))
        (count + 1) (acc + (v % 128 + 128) % 128 * 128 ^ count) rest (by omega) hv'
      rw [ihres]
      have hmod : (v % 128 + 128) % 128 = v % 128 := by omega
      rw [hmod]
      have hval : acc + v % 128 * 128 ^ count + v / 128 * 128 ^ (count + 1)
          = acc + v * 128 ^ count := by
        have hdm : 128 * (v / 128) + v % 128 = v := Nat.div_add_mod v 128
        calc acc + v % 128 * 128 ^ count + v / 128 * 128 ^ (count + 1)
            = acc + (128 * (v / 128) + v % 128) * 128 ^ count := by ring
          _ = acc + v * 128 ^ count := by rw [hdm]
      have hlen : (count + 1) + (varintEncode (v / 128)).length
          = count + ((v % 128 + 128) :: varintEncode (v / 128)).length := by
        simp [List.length_cons]
        omega
      rw [hval, hlen]

/-- VarInt round-trip with an arbitrary suffix: decoding an encoding followed
by more bytes yields the value and the encoding's length. -/
theorem varintDecode_encode_append (v : Nat) (rest : List Nat) (hv : v < 2 ^ 32) :
    varintDecode (varintEncode v ++ rest) = .ok (v, (varintEncode v).length) := by
  have h35 : v < 2 ^ (7 * (5 - 0)) := by
    calc v < 2 ^ 32 := hv
      _ ≤ 2 ^ 35 := by norm_num
      _ = 2 ^ (7 * (5 - 0)) := by norm_num
  have := varintDecodeAux_append_encode v 0 0 rest (by omega) h35
  simpa [varintDecode] using this

theorem varintEncode_length_le (k : Nat) :
    ∀ v, v < 2 ^ (7 * (k + 1)) → (varintEncode v).length ≤ k + 1 := by
  induction k with
  | zero =>
    intro v hv
    norm_num at hv
    rw [varintEncode, dif_pos hv]
    simp
  | succ k ih =>
    intro v hv
    by_cases h : v < 128
    · rw [varintEncode, dif_pos h]; simp
    · rw [varintEncode, dif_neg h]
      simp only [List.length_cons]
      have hv' : v / 128 < 2 ^ (7 * (k + 1)) := by
        have hsplit : 7 * (k + 1 + 1) = 7 * (k + 1) + 7 := by omega
        rw [hsplit, pow_add] at hv
        have h128 : (2 : Nat) ^ 7 = 128 := by norm_num
        rw [h128] at hv
        exact Nat.div_lt_of_lt_mul (by linarith [hv])
      have := ih (v / 128) hv'
      omega

theorem varintEncode_length_pos (v : Nat) : 1 ≤ (varintEncode v).length := by
  have := varintEncode_ne_nil v
  cases hc : varintEncode v with
  | nil => exact absurd hc this
  | cons a t => simp

/-- The decoding loop only ever fails with `UnexpectedEof` or
`MalformedVarInt`. -/
theorem varintDecodeAux_error_kinds :
    ∀ (bytes : List Nat) (count acc : Nat) (e : ProtocolError),
      varintDecodeAux bytes count acc = .error e →
      e = .unexpectedEof ∨ e = .malformedVarInt := by
  intro bytes
  induction bytes with
  | nil =>
    intro count acc e h
    rw [varintDecodeAux] at h
    cases h
    exact Or.inl rfl
  | cons b rest ih =>
    intro count acc e h
    rw [varintDecodeAux] at h
    by_cases hb : b < 128
    · rw [if_pos hb] at h; cases h
    · rw [if_neg hb] at h
      by_cases hc : count + 1 ≥ 5
      · rw [if_pos hc] at h; cases h; exact Or.inr rfl
      · rw [if_neg hc] at h
        exact ih _ _ _ h

/-! ### JSON data model of `src/server.rs`

The response body is decoded by serde into the structs declared in
`src/server.rs` (lines 29–146).  The JSON text → JSON tree parsing is done by
the external `serde_json` crate and stays abstract; the tree → struct mapping
below follows the serde derive attributes on the source structs
(`#[serde(default)]`, `#[serde(untagged)]`, `#[serde(tag = "type")]`,
`#[serde(rename = ...)]`, `Option` fields). -/

/-- A parsed JSON document, as handed to the derived deserializers. -/
inductive Json where
  | null
  | bool (b : Bool)
  | num (n : Int)
  | str (s : String)
  | arr (elems : List Json)
  | obj (members : List (String × Json))

/-- Field lookup in a JSON object (first occurrence). -/
def objGet (members : List (String × Json)) (key : String) : Option Json :=
  (members.find? (fun kv => kv.fst == key)).map Prod.snd

/-- serde: a required field; missing fields are an error. -/
def requiredField (members : List (String × Json)) (key : String) : Except String Json :=
  match objGet members key with
  | none => .error ("missing field " ++ key)
  | some j => .ok j

/-- serde `#[serde(default)]`: a missing field takes the default; a present
field must decode. -/
def defaultField (members : List (String × Json)) (key : String)
    (dec : Json → Except String α) (dflt : α) : Except String α :=
  match objGet members key with
  | none => .ok dflt
  | some j => dec j

/-- serde `Option<T>` field: missing or `null` is `none`; otherwise the value
must decode. -/
def optionField (members : List (String × Json)) (key : String)
    (dec : Json → Except String α) : Except String (Option α) :=
  match objGet members key with
  | none => .ok none
  | some .null => .ok none
  | some j => (dec j).map some

def decodeString : Json → Except String String
  | .str s => .ok s
  | _ => .error "expected a string"

def decodeU32 : Json → Except String Nat
  | .num n => if 0 ≤ n ∧ n < 4294967296 then .ok n.toNat else .error "invalid u32"
  | _ => .error "expected a u32"

def decodeBool : Json → Except String Bool
  | .bool b => .ok b
  | _ => .error "expected a bool"

def decodeList (dec : Json → Except String α) : Json → Except String (List α)
  | .arr elems => go elems
  | _ => .error "expected an array"
where
  go : List Json → Except String (List α)
    | [] => .ok []
    | j :: rest => do
      let x ← dec j
      let xs ← go rest
      .ok (x :: xs)

/-- `ServerVersion` (`src/server.rs` lines 30–37). -/
structure ServerVersion where
  name : String
  protocol : Nat
  deriving DecidableEq, Repr

def decodeServerVersion : Json → Except String ServerVersion
  | .obj members => do
    let name ← decodeString (← requiredField members "name")
    let protocol ← decodeU32 (← requiredField members "protocol")
    .ok ⟨name, protocol⟩
  | _ => .error "expected an object"

/-- `ServerPlayer` (`src/server.rs` lines 40–47). -/
structure ServerPlayer where
  name : String
  id : String
  deriving DecidableEq, Repr

def decodeServerPlayer : Json → Except String ServerPlayer
  | .obj members => do
    let name ← decodeString (← requiredField members "name")
    let id ← decodeString (← requiredField members "id")
    .ok ⟨name, id⟩
  | _ => .error "expected an object"

/-- `ServerPlayers` (`src/server.rs` lines 51–63). -/
structure ServerPlayers where
  max : Nat
  online : Nat
  sample : Option (List ServerPlayer)
  deriving DecidableEq, Repr

def decodeServerPlayers : Json → Except String ServerPlayers
  | .obj members => do
    let max ← decodeU32 (← requiredField members "max")
    let online ← decodeU32 (← requiredField members "online")
    let sample ← optionField members "sample" (decodeList decodeServerPlayer)
    .ok ⟨max, online, sample⟩
  | _ => .error "expected an object"

/-- `ExtraDescriptionPart` (`src/server.rs` lines 75–84): `text` is required,
`color`, `bold` and `italic` carry `#[serde(default)]`. -/
structure ExtraDescriptionPart where
  text : String
  color : String
  bold : Bool
  italic : Bool
  deriving DecidableEq, Repr

def decodeExtraDescriptionPart : Json → Except String ExtraDescriptionPart
  | .obj members => do
    let text ← decodeString (← requiredField members "text")
    let color ← defaultField members "color" decodeString ""
    let bold ← defaultField members "bold" decodeBool false
    let italic ← defaultField members "italic" decodeBool false
    .ok ⟨text, color, bold, italic⟩
  | _ => .error "expected an object"

/-- `BigServerDescription` (`src/server.rs` lines 66–72): both `text` and
`extra` carry `#[serde(default)]`. -/
structure BigServerDescription where
  text : String
  extra : List ExtraDescriptionPart
  deriving DecidableEq, Repr

def decodeBigServerDescription : Json → Except String BigServerDescription
  | .obj members => do
    let text ← defaultField members "text" decodeString ""
    let extra ← defaultField members "extra" (decodeList decodeExtraDescriptionPart) []
    .ok ⟨text, extra⟩
  | _ => .error "expected an object"

/-- `ServerDescription` (`src/server.rs` lines 108–115), an
`#[serde(untagged)]` enum: a JSON string is the `Simple` variant, otherwise a
`BigServerDescription` object is the `Big` variant. -/
inductive ServerDescription where
  | Simple (desc : String)
  | Big (desc : BigServerDescription)
  deriving DecidableEq, Repr

/-- `ServerDescription::get_text` (`src/server.rs` lines 120–125). -/
def ServerDescription.get_text : ServerDescription → String
  | .Big desc => desc.text
  | .Simple desc => desc

/-- serde `#[serde(untagged)]` tries the variants in declaration order. -/
def decodeServerDescription (j : Json) : Except String ServerDescription :=
  match decodeString j with
  | .ok s => .ok (.Simple s)
  | .error _ =>
    match decodeBigServerDescription j with
    | .ok d => .ok (.Big d)
    | .error _ => .error "data did not match any variant of untagged enum ServerDescription"

/-- `ForgeModInfo` (`src/server.rs` lines 99–103). -/
structure ForgeModInfo where
  modid : String
  version : String
  deriving DecidableEq, Repr

def decodeForgeModInfo : Json → Except String ForgeModInfo
  | .obj members => do
    let modid ← decodeString (← requiredField members "modid")
    let version ← decodeString (← requiredField members "version")
    .ok ⟨modid, version⟩
  | _ => .error "expected an object"

/-- `ModInfo` (`src/server.rs` lines 88–96), internally tagged by `type`;
the only variant is `FML` (Forge) whose mod list field is renamed
`modList`. -/
inductive ModInfo where
  | Forge (mod_list : List ForgeModInfo)
  deriving DecidableEq, Repr

def decodeModInfo : Json → Except String ModInfo
  | .obj members =>
    match objGet members "type" with
    | none => .error "missing field type"
    | some (.str tag) =>
      if tag = "FML" then
        match requiredField members "modList" with
        | .error e => .error e
        | .ok j =>
          match decodeList decodeForgeModInfo j with
          | .error e => .error e
          | .ok ml => .ok (.Forge ml)
      else .error "unknown variant of ModInfo"
    | some _ => .error "expected a string tag"
  | _ => .error "expected an object"

/-- `StatusResponse` (`src/server.rs` lines 130–146). -/
structure StatusResponse where
  version : ServerVersion
  players : ServerPlayers
  description : ServerDescription
  favicon : Option String
  modinfo : Option ModInfo
  deriving DecidableEq, Repr

/-- The derived deserialization of `StatusResponse` from a JSON tree. -/
def decodeStatusResponse : Json → Except String StatusResponse
  | .obj members => do
    let version ← decodeServerVersion (← requiredField members "version")
    let players ← decodeServerPlayers (← requiredField members "players")
    let description ← decodeServerDescription (← requiredField members "description")
    let favicon ← optionField members "favicon" decodeString
    let modinfo ← optionField members "modinfo" decodeModInfo
    .ok ⟨version, players, description, favicon, modinfo⟩
  | _ => .error "expected an object"

/-! ### Connection configuration and sequencer (`src/server.rs` lines 148–249) -/

/-- `LATEST_PROTOCOL_VERSION` (`src/server.rs` line 148). -/
def LATEST_PROTOCOL_VERSION : Nat := 578

/-- `DEFAULT_PORT` (`src/server.rs` line 149). -/
def DEFAULT_PORT : Nat := 25565

/-- `ConnectionConfig` (`src/server.rs` lines 153–157). -/
structure ConnectionConfig where
  protocol_version : Nat
  address : String
  port : Nat
  deriving DecidableEq, Repr

/-- `ConnectionConfig::build` (`src/server.rs` lines 162–168). -/
def ConnectionConfig.build (address : String) : ConnectionConfig :=
  { protocol_version := LATEST_PROTOCOL_VERSION, address := address, port := DEFAULT_PORT }

/-- `ConnectionConfig::with_protocol_version` (`src/server.rs` lines 174–177). -/
def ConnectionConfig.with_protocol_version (c : ConnectionConfig) (pv : Nat) : ConnectionConfig :=
  { c with protocol_version := pv }

/-- `ConnectionConfig::with_port` (`src/server.rs` lines 182–185). -/
def ConnectionConfig.with_port (c : ConnectionConfig) (p : Nat) : ConnectionConfig :=
  { c with port := p }

/-- `StatusConnection` (`src/server.rs` lines 210–215). -/
structure StatusConnection where
  stream : TcpStream
  protocol_version : Nat
  address : String
  port : Nat
  deriving DecidableEq, Repr

/-- `ConnectionConfig::connect` (`src/server.rs` lines 188–199).  The result
of the transport-level `TcpStream::connect` is passed in (`.error ()` models
a failed TCP connect); on failure the error is mapped to
`ServerError::FailedToConnect` and no connection is produced. -/
def ConnectionConfig.connect (c : ConnectionConfig) (transport : Except Unit TcpStream) :
    Except AppError StatusConnection :=
  match transport with
  | .error _ => .error (.server .failedToConnect)
  | .ok stream =>
    .ok { stream := stream, protocol_version := c.protocol_version,
          address := c.address, port := c.port }

/-- The free-standing `connect` convenience function
(`src/server.rs` lines 205–207). -/
def connect (address : String) (transport : Except Unit TcpStream) :
    Except AppError StatusConnection :=
  (ConnectionConfig.build address).connect transport

/-- `StatusConnection::status_raw` (`src/server.rs` lines 220–244): build the
handshake from the stored configuration, write it, write an empty request,
read one packet and deserialize it as a Response, returning its body; each
step's failure is context-wrapped and propagated immediately.  Takes and
returns the connection (`&mut self`). -/
def StatusConnection.status_raw (c : StatusConnection) :
    Except AppError (List Nat) × StatusConnection :=
  match writePacket c.stream (handshakeBody c.protocol_version c.address c.port) with
  | .error e => (.error (.protocol "failed to write handshake packet" e), c)
  | .ok s1 =>
    match writePacket s1 requestBody with
    | .error e => (.error (.protocol "failed to write request packet" e), { c with stream := s1 })
    | .ok s2 =>
      match readPacket s2 with
      | .error e => (.error (.protocol "failed to read response packet" e), { c with stream := s2 })
      | .ok (pbody, s3) =>
        match responseDeserialize pbody with
        | .error e =>
          (.error (.protocol "failed to read response packet" e), { c with stream := s3 })
        | .ok respBody => (.ok respBody, { c with stream := s3 })

/-- `StatusConnection::status` (`src/server.rs` lines 246–248):
`serde_json::from_str` applied to the raw body, with a decode failure mapped
to `ServerError::InvalidJson`.  The external `serde_json` parser is the
`fromStr` argument. -/
def StatusConnection.status (fromStr : List Nat → Except String StatusResponse)
    (c : StatusConnection) : Except AppError StatusResponse × StatusConnection :=
  match c.status_raw with
  | (.error e, c2) => (.error e, c2)
  | (.ok body, c2) =>
    match fromStr body with
    | .error msg => (.error (.server (.invalidJson msg)), c2)
    | .ok resp => (.ok resp, c2)

/-! ### Framing and sequencer lemmas -/

theorem writeBytes_ok (s s2 : TcpStream) (bs : List Nat) (h : writeBytes s bs = .ok s2) :
    s2.output = s.output ++ bs ∧ s2.input = s.input := by
  unfold writeBytes at h
  cases hf : s.writeFuel with
  | none =>
    rw [hf] at h
    injection h with h2
    subst h2
    simp
  | some fuel =>
    rw [hf] at h
    dsimp only at h
    by_cases hl : bs.length ≤ fuel
    · rw [if_pos hl] at h
      injection h with h2
      subst h2
      simp
    · rw [if_neg hl] at h
      cases h

theorem writePacket_ok (s s2 : TcpStream) (body : List Nat)
    (h : writePacket s body = .ok s2) :
    s2.output = s.output ++ frame body ∧ s2.input = s.input :=
  writeBytes_ok s s2 (frame body) h

theorem readPacket_ok (s s2 : TcpStream) (b : List Nat)
    (h : readPacket s = .ok (b, s2)) : s2.output = s.output := by
  unfold readPacket at h
  cases hv : varintDecode s.input with
  | error e => rw [hv] at h; cases h
  | ok p =>
    obtain ⟨len, consumed⟩ := p
    rw [hv] at h
    dsimp only at h
    by_cases hl : (s.input.drop consumed).length < len
    · rw [if_pos hl] at h; cases h
    · rw [if_neg hl] at h
      injection h with h2
      injection h2 with h3 h4
      subst h4
      simp

/-- Successful `status_raw` runs decompose into the three sequential protocol
steps. -/
theorem status_raw_ok_cases (c : StatusConnection) (body : List Nat)
    (c2 : StatusConnection) (h : c.status_raw = (.ok body, c2)) :
    ∃ s1 s2 pbody s3,
      writePacket c.stream (handshakeBody c.protocol_version c.address c.port) = .ok s1 ∧
      writePacket s1 requestBody = .ok s2 ∧
      readPacket s2 = .ok (pbody, s3) ∧
      responseDeserialize pbody = .ok body ∧
      c2 = { c with stream := s3 } := by
  unfold StatusConnection.status_raw at h
  split at h
  · cases h
  · rename_i s1 hw1
    split at h
    · cases h
    · rename_i s2 hw2
      split at h
      · cases h
      · rename_i pbody s3 hr
        split at h
        · cases h
        · rename_i respBody hd
          injection h with h1 h2
          injection h1 with h1
          subst h1
          subst h2
          exact ⟨s1, s2, pbody, s3, hw1, hw2, hr, hd, rfl⟩

/-- Failing `status_raw` runs surface a context-wrapped protocol error from
one of the three steps. -/
theorem status_raw_error_cases (c : StatusConnection) (e : AppError)
    (c2 : StatusConnection) (h : c.status_raw = (.error e, c2)) :
    ∃ pe : ProtocolError,
      e = .protocol "failed to write handshake packet" pe ∨
      e = .protocol "failed to write request packet" pe ∨
      e = .protocol "failed to read response packet" pe := by
  unfold StatusConnection.status_raw at h
  split at h
  · rename_i pe _
    injection h with h1 h2
    injection h1 with h1
    subst h1
    exact ⟨pe, Or.inl rfl⟩
  · split at h
    · rename_i pe _
      injection h with h1 h2
      injection h1 with h1
      subst h1
      exact ⟨pe, Or.inr (Or.inl rfl)⟩
    · split at h
      · rename_i pe _
        injection h with h1 h2
        injection h1 with h1
        subst h1
        exact ⟨pe, Or.inr (Or.inr rfl)⟩
      · split at h
        · rename_i pe _
          injection h with h1 h2
          injection h1 with h1
          subst h1
          exact ⟨pe, Or.inr (Or.inr rfl)⟩
        · cases h

/-- The bytes a successful `status_raw` run puts on the wire: exactly the
framed handshake followed by the framed request. -/
theorem status_raw_ok_output (c : StatusConnection) (body : List Nat)
    (c2 : StatusConnection) (h : c.status_raw = (.ok body, c2)) :
    c2.stream.output = c.stream.output ++
      frame (handshakeBody c.protocol_version c.address c.port) ++ frame requestBody := by
  obtain ⟨s1, s2, pbody, s3, hw1, hw2, hr, _, hc2⟩ := status_raw_ok_cases c body c2 h
  have o1 := (writePacket_ok _ _ _ hw1).1
  have o2 := (writePacket_ok _ _ _ hw2).1
  have o3 := readPacket_ok _ _ _ hr
  subst hc2
  simp only [o3, o2, o1, List.append_assoc]

/-! ### Evaluation lemmas

`varintEncode` recurses on a well-founded measure, so concrete runs are
evaluated through its unfolding equations. -/

theorem varintEncode_small (v : Nat) (h : v < 128) : varintEncode v = [v] := by
  rw [varintEncode, dif_pos h]

theorem varintEncode_step (v : Nat) (h : 128 ≤ v) :
    varintEncode v = (v % 128 + 128) :: varintEncode (v / 128) := by
  rw [varintEncode, dif_neg (by omega)]

theorem utf8Bytes_a : utf8Bytes "a" = [97] := by decide

theorem handshakeBody_1a0 : handshakeBody 1 "a" 0 = [0, 1, 1, 97, 0, 0, 1] := by
  unfold handshakeBody
  rw [utf8Bytes_a]
  norm_num [varintEncode_small]

theorem frame_handshake_1a0 : frame (handshakeBody 1 "a" 0) = [7, 0, 1, 1, 97, 0, 0, 1] := by
  rw [frame, handshakeBody_1a0]
  norm_num [varintEncode_small]

theorem frame_request : frame requestBody = [1, 0] := by
  rw [frame, requestBody]
  norm_num [varintEncode_small]

/-! ### Field-lookup lemmas for the serde model -/

theorem requiredField_some (members : List (String × Json)) (key : String) (j : Json)
    (h : objGet members key = some j) : requiredField members key = .ok j := by
  unfold requiredField
  rw [h]

theorem defaultField_none {α : Type} (members : List (String × Json)) (key : String)
    (dec : Json → Except String α) (dflt : α) (h : objGet members key = none) :
    defaultField members key dec dflt = .ok dflt := by
  unfold defaultField
  rw [h]

theorem defaultField_some {α : Type} (members : List (String × Json)) (key : String)
    (dec : Json → Except String α) (dflt : α) (j : Json) (h : objGet members key = some j) :
    defaultField members key dec dflt = dec j := by
  unfold defaultField
  rw [h]

/-! ### Claim theorems -/

/-- C2: for every value `v` in `0..=u32::MAX`, the VarInt encoding of `v` is
a sequence of 1 to 5 bytes, and decoding that sequence yields exactly the
pair `(v, length of the encoding)`. -/
theorem C2_varint_roundtrip (v : Nat) (hv : v < 2 ^ 32) :
    1 ≤ (varintEncode v).length ∧ (varintEncode v).length ≤ 5 ∧
      varintDecode (varintEncode v) = .ok (v, (varintEncode v).length) := by
  refine ⟨varintEncode_length_pos v, ?_, ?_⟩
  · have h35 : v < 2 ^ (7 * (4 + 1)) := by
      calc v < 2 ^ 32 := hv
        _ ≤ 2 ^ (7 * (4 + 1)) := by norm_num
    exact varintEncode_length_le 4 v h35
  · have := varintDecode_encode_append v [] hv
    simpa using this

/-- Witness for C2 at `v = 578` (the default protocol version). -/
theorem C2_varint_roundtrip_witness :
    (578 : Nat) < 2 ^ 32 ∧
      (1 ≤ (varintEncode 578).length ∧ (varintEncode 578).length ≤ 5 ∧
        varintDecode (varintEncode 578) = .ok (578, (varintEncode 578).length)) :=
  ⟨by norm_num, C2_varint_roundtrip 578 (by norm_num)⟩

/-- C6: `ConnectionConfig::build` keeps the given address and defaults the
port to 25565 and the protocol version to the latest known value 578;
`with_port` sets exactly the port and `with_protocol_version` sets exactly
the protocol version, each leaving the other fields unchanged. -/
theorem C6_builder_defaults (a : String) (c : ConnectionConfig) (p v : Nat) :
    (ConnectionConfig.build a).port = 25565 ∧
    (ConnectionConfig.build a).protocol_version = 578 ∧
    (ConnectionConfig.build a).address = a ∧
    ((c.with_port p).port = p ∧ (c.with_port p).address = c.address ∧
      (c.with_port p).protocol_version = c.protocol_version) ∧
    ((c.with_protocol_version v).protocol_version = v ∧
      (c.with_protocol_version v).address = c.address ∧
      (c.with_protocol_version v).port = c.port) :=
  ⟨rfl, rfl, rfl, ⟨rfl, rfl, rfl⟩, ⟨rfl, rfl, rfl⟩⟩

/-- C8: `connect` produces a connection value (carrying the configuration)
exactly when the transport-level connect succeeds; a transport failure yields
the `FailedToConnect` condition — distinct from every other error — and no
connection value. -/
theorem C8_connect_behaviour (cfg : ConnectionConfig) (s : TcpStream) :
    cfg.connect (.error ()) = .error (.server .failedToConnect) ∧
    cfg.connect (.ok s) =
      .ok { stream := s, protocol_version := cfg.protocol_version,
            address := cfg.address, port := cfg.port } ∧
    (AppError.server .failedToConnect ≠ .server .protocolError ∧
      (∀ msg, AppError.server .failedToConnect ≠ .server (.invalidJson msg)) ∧
      (∀ ctx pe, AppError.server .failedToConnect ≠ .protocol ctx pe)) :=
  ⟨rfl, rfl, by simp, fun msg => by simp, fun ctx pe => by simp⟩

/-- The end-to-end scenario's decoded JSON document: version 1.16.5 /
protocol 754, players 3 of 20, description the plain string "A server". -/
def scenarioJson : Json :=
  Json.obj [("version", .obj [("name", .str "1.16.5"), ("protocol", .num 754)]),
            ("players", .obj [("max", .num 20), ("online", .num 3)]),
            ("description", .str "A server")]

/-- The structured status the scenario document decodes to. -/
def scenarioResponse : StatusResponse :=
  { version := ⟨"1.16.5", 754⟩, players := ⟨20, 3, none⟩,
    description := .Simple "A server", favicon := none, modinfo := none }

/-- C7: `get_text` returns the whole string of a `Simple` description and
the `text` member of a `Big` one; in the end-to-end scenario the plain-string
description "A server" decodes to the `Simple` variant and `get_text` equals
"A server". -/
theorem C7_get_text_shapes :
    (∀ s, (ServerDescription.Simple s).get_text = s) ∧
    (∀ b, (ServerDescription.Big b).get_text = b.text) ∧
    decodeServerDescription (.str "A server") = .ok (.Simple "A server") ∧
    decodeStatusResponse scenarioJson = .ok scenarioResponse ∧
    scenarioResponse.description.get_text = "A server" :=
  ⟨fun _ => rfl, fun _ => rfl, rfl, rfl, rfl⟩

/-- C10: a `Big` description object may omit `text` and `extra`, which
default to the empty string and the empty list, so decoding succeeds and
`get_text` returns the empty string; an extra part needs only `text`, with
`color`, `bold` and `italic` defaulting to `""`, `false` and `false`. -/
theorem C10_description_defaults (members pmembers : List (String × Json)) (t : String)
    (htext : objGet members "text" = none) (hextra : objGet members "extra" = none)
    (ptext : objGet pmembers "text" = some (.str t))
    (pcolor : objGet pmembers "color" = none)
    (pbold : objGet pmembers "bold" = none)
    (pitalic : objGet pmembers "italic" = none) :
    decodeBigServerDescription (.obj members) = .ok ⟨"", []⟩ ∧
    decodeServerDescription (.obj members) = .ok (.Big ⟨"", []⟩) ∧
    (ServerDescription.Big ⟨"", []⟩).get_text = "" ∧
    decodeExtraDescriptionPart (.obj pmembers) = .ok ⟨t, "", false, false⟩ := by
  have hbig : decodeBigServerDescription (.obj members) = .ok ⟨"", []⟩ := by
    show (do
      let text ← defaultField members "text" decodeString ""
      let extra ← defaultField members "extra" (decodeList decodeExtraDescriptionPart) []
      (.ok ⟨text, extra⟩ : Except String BigServerDescription)) = .ok ⟨"", []⟩
    rw [defaultField_none members "text" decodeString "" htext,
      defaultField_none members "extra" (decodeList decodeExtraDescriptionPart) [] hextra]
    rfl
  refine ⟨hbig, ?_, rfl, ?_⟩
  · have hds : decodeString (Json.obj members) = .error "expected a string" := rfl
    unfold decodeServerDescription
    rw [hds, hbig]
  · show (do
      let text ← decodeString (← requiredField pmembers "text")
      let color ← defaultField pmembers "color" decodeString ""
      let bold ← defaultField pmembers "bold" decodeBool false
      let italic ← defaultField pmembers "italic" decodeBool false
      (.ok ⟨text, color, bold, italic⟩ : Except String ExtraDescriptionPart)) =
      .ok ⟨t, "", false, false⟩
    rw [requiredField_some pmembers "text" (.str t) ptext,
      defaultField_none pmembers "color" decodeString "" pcolor,
      defaultField_none pmembers "bold" decodeBool false pbold,
      defaultField_none pmembers "italic" decodeBool false pitalic]
    rfl

/-- The concrete objects instantiating C10: a description object with neither
`text` nor `extra`, and an extra part with only `text`. -/
def c10members : List (String × Json) := [("other", Json.null)]

def c10pmembers : List (String × Json) := [("text", Json.str "hi")]

/-- Witness for C10 on the concrete objects. -/
theorem C10_description_defaults_witness :
    decodeBigServerDescription (.obj c10members) = .ok ⟨"", []⟩ ∧
    decodeServerDescription (.obj c10members) = .ok (.Big ⟨"", []⟩) ∧
    (ServerDescription.Big ⟨"", []⟩).get_text = "" ∧
    decodeExtraDescriptionPart (.obj c10pmembers) = .ok ⟨"hi", "", false, false⟩ :=
  C10_description_defaults c10members c10pmembers "hi" rfl rfl rfl rfl rfl rfl

/-- C1: on a connection, `status_raw` writes the framed Handshake built from
the stored protocol version, address and port, then the framed empty
Request, then reads one packet and deserializes it as a Response, returning
its body — in exactly this order — and any step's failure aborts the
sequence with an error from that step and no result. -/
theorem C1_status_raw_sequence (c : StatusConnection) :
    (∀ body c2, c.status_raw = (.ok body, c2) →
      ∃ s1 s2 pbody s3,
        writePacket c.stream (handshakeBody c.protocol_version c.address c.port) = .ok s1 ∧
        writePacket s1 requestBody = .ok s2 ∧
        readPacket s2 = .ok (pbody, s3) ∧
        responseDeserialize pbody = .ok body ∧
        c2 = { c with stream := s3 } ∧
        c2.stream.output = c.stream.output ++
          frame (handshakeBody c.protocol_version c.address c.port) ++ frame requestBody) ∧
    (∀ e c2, c.status_raw = (.error e, c2) →
      ∃ pe : ProtocolError,
        e = .protocol "failed to write handshake packet" pe ∨
        e = .protocol "failed to write request packet" pe ∨
        e = .protocol "failed to read response packet" pe) := by
  constructor
  · intro body c2 h
    obtain ⟨s1, s2, pbody, s3, hw1, hw2, hr, hd, hc2⟩ := status_raw_ok_cases c body c2 h
    exact ⟨s1, s2, pbody, s3, hw1, hw2, hr, hd, hc2, status_raw_ok_output c body c2 h⟩
  · exact status_raw_error_cases c

/-- A connection about to receive the response body `[104, 105]`. -/
def c1conn : StatusConnection :=
  { stream := { input := [4, 0, 2, 104, 105], output := [], writeFuel := none },
    protocol_version := 1, address := "a", port := 0 }

/-- The state `c1conn` reaches after its status exchange. -/
def c1conn2 : StatusConnection :=
  { stream := { input := [], output := [7, 0, 1, 1, 97, 0, 0, 1, 1, 0], writeFuel := none },
    protocol_version := 1, address := "a", port := 0 }

theorem c1_run : c1conn.status_raw = (.ok [104, 105], c1conn2) := by
  unfold StatusConnection.status_raw
  simp [c1conn, c1conn2, writePacket, writeBytes, frame_handshake_1a0, frame_request,
    readPacket, varintDecode, varintDecodeAux, responseDeserialize]

/-- Witness for C1 on the concrete connection `c1conn`. -/
theorem C1_status_raw_sequence_witness :
    ∃ s1 s2 pbody s3,
      writePacket c1conn.stream
        (handshakeBody c1conn.protocol_version c1conn.address c1conn.port) = .ok s1 ∧
      writePacket s1 requestBody = .ok s2 ∧
      readPacket s2 = .ok (pbody, s3) ∧
      responseDeserialize pbody = .ok [104, 105] ∧
      c1conn2 = { c1conn with stream := s3 } ∧
      c1conn2.stream.output = c1conn.stream.output ++
        frame (handshakeBody c1conn.protocol_version c1conn.address c1conn.port) ++
          frame requestBody :=
  (C1_status_raw_sequence c1conn).1 [104, 105] c1conn2 c1_run

/-- C3: every failure of the top-level `status` call is a protocol-step
error that retains the concrete `ProtocolError` kind inside the wrapped
error, or the distinct invalid-JSON condition; the collapsed
`ServerError::ProtocolError` value is never what `status` surfaces, and
equal surfaced protocol errors have equal kinds. -/
theorem C3_status_error_conditions (fromStr : List Nat → Except String StatusResponse)
    (c : StatusConnection) :
    (∀ e c2, c.status fromStr = (.error e, c2) →
      ((∃ ctx pe, e = .protocol ctx pe) ∨ (∃ msg, e = .server (.invalidJson msg))) ∧
      e ≠ .server .protocolError ∧ e ≠ .server .failedToConnect) ∧
    (∀ ctx1 pe1 ctx2 pe2, AppError.protocol ctx1 pe1 = .protocol ctx2 pe2 → pe1 = pe2) := by
  constructor
  · intro e c2 h
    unfold StatusConnection.status at h
    split at h
    · rename_i e1 c21 heq
      injection h with h1 h2
      injection h1 with h1
      subst h1
      obtain ⟨pe, hpe⟩ := status_raw_error_cases c e1 c21 heq
      rcases hpe with hp | hp | hp <;> subst hp <;>
        exact ⟨Or.inl ⟨_, pe, rfl⟩, by simp, by simp⟩
    · rename_i body c21 heq
      split at h
      · rename_i msg hmsg
        injection h with h1 h2
        injection h1 with h1
        subst h1
        exact ⟨Or.inr ⟨msg, rfl⟩, by simp, by simp⟩
      · rename_i resp hresp
        injection h with h1 h2
        cases h1
  · intro ctx1 pe1 ctx2 pe2 hpe
    cases hpe
    rfl

/-- A JSON mapping that always fails (its result is irrelevant here). -/
def c3fromStr : List Nat → Except String StatusResponse := fun _ => .error "bad"

/-- A connection whose server sends nothing, so the read step hits EOF. -/
def c3conn : StatusConnection :=
  { stream := { input := [], output := [], writeFuel := none },
    protocol_version := 1, address := "a", port := 0 }

/-- The state `c3conn` reaches when its read fails. -/
def c3conn2 : StatusConnection :=
  { stream := { input := [], output := [7, 0, 1, 1, 97, 0, 0, 1, 1, 0], writeFuel := none },
    protocol_version := 1, address := "a", port := 0 }

theorem c3_run :
    StatusConnection.status c3fromStr c3conn =
      (.error (.protocol "failed to read response packet" .unexpectedEof), c3conn2) := by
  unfold StatusConnection.status StatusConnection.status_raw
  simp [c3conn, c3conn2, c3fromStr, writePacket, writeBytes, frame_handshake_1a0,
    frame_request, readPacket, varintDecode, varintDecodeAux, responseDeserialize]

/-- Witness for C3 on the EOF run of `c3conn`. -/
theorem C3_status_error_conditions_witness :
    ((∃ ctx pe, AppError.protocol "failed to read response packet" ProtocolError.unexpectedEof =
        .protocol ctx pe) ∨
      (∃ msg, AppError.protocol "failed to read response packet" ProtocolError.unexpectedEof =
        .server (.invalidJson msg))) ∧
    AppError.protocol "failed to read response packet" ProtocolError.unexpectedEof ≠
      .server .protocolError ∧
    AppError.protocol "failed to read response packet" ProtocolError.unexpectedEof ≠
      .server .failedToConnect :=
  (C3_status_error_conditions c3fromStr c3conn).1
    (.protocol "failed to read response packet" .unexpectedEof) c3conn2 c3_run

/-- A connection whose server has two response packets queued, enough for
two full status exchanges. -/
def c4conn : StatusConnection :=
  { stream := { input := [4, 0, 2, 104, 105, 4, 0, 2, 106, 107], output := [],
                writeFuel := none },
    protocol_version := 1, address := "a", port := 0 }

/-- The state `c4conn` reaches after its first exchange: one response still
queued, one framed handshake-request pair on the wire. -/
def c4conn2 : StatusConnection :=
  { stream := { input := [4, 0, 2, 106, 107], output := [7, 0, 1, 1, 97, 0, 0, 1, 1, 0],
                writeFuel := none },
    protocol_version := 1, address := "a", port := 0 }

/-- The state after the second exchange: two framed pairs on the wire. -/
def c4conn3 : StatusConnection :=
  { stream := { input := [],
                output := [7, 0, 1, 1, 97, 0, 0, 1, 1, 0, 7, 0, 1, 1, 97, 0, 0, 1, 1, 0],
                writeFuel := none },
    protocol_version := 1, address := "a", port := 0 }

theorem c4_run1 : c4conn.status_raw = (.ok [104, 105], c4conn2) := by
  unfold StatusConnection.status_raw
  simp [c4conn, c4conn2, writePacket, writeBytes, frame_handshake_1a0, frame_request,
    readPacket, varintDecode, varintDecodeAux, responseDeserialize]

theorem c4_run2 : c4conn2.status_raw = (.ok [106, 107], c4conn3) := by
  unfold StatusConnection.status_raw
  simp [c4conn2, c4conn3, writePacket, writeBytes, frame_handshake_1a0, frame_request,
    readPacket, varintDecode, varintDecodeAux, responseDeserialize]

/-- C4 is refuted by the code: after `c4conn`'s first exchange completes, a
second `status_raw` invocation neither fails nor is rejected — it succeeds
and silently re-sends the handshake and request packets, leaving both framed
pairs on the wire. -/
theorem C4_counterexample :
    c4conn.status_raw.fst = .ok [104, 105] ∧
    c4conn.status_raw.snd.status_raw.fst = .ok [106, 107] ∧
    c4conn.status_raw.snd.status_raw.snd.stream.output =
      frame (handshakeBody 1 "a" 0) ++ frame requestBody ++
        frame (handshakeBody 1 "a" 0) ++ frame requestBody := by
  refine ⟨by simp [c4_run1], by simp [c4_run1, c4_run2], ?_⟩
  simp [c4_run1, c4_run2, c4conn3, frame_handshake_1a0, frame_request]

/-- C4 amended: the sequencer does not enforce single use — a `status_raw`
invocation on any connection state, including one whose previous exchange
already completed, silently re-sends the framed handshake and request
whenever it succeeds; a fresh exchange therefore requires a new connection
only because the old stream's data is consumed, not because reuse is
rejected. -/
theorem C4_reinvocation_resends (c : StatusConnection) (body : List Nat)
    (c2 : StatusConnection) (h : c.status_raw = (.ok body, c2)) :
    c2.stream.output = c.stream.output ++
      frame (handshakeBody c.protocol_version c.address c.port) ++ frame requestBody :=
  status_raw_ok_output c body c2 h

/-- Witness for the amended C4: the second invocation, on the state `c4conn2`
left by a completed exchange, re-sends the framed pair. -/
theorem C4_reinvocation_resends_witness :
    c4conn3.stream.output = c4conn2.stream.output ++
      frame (handshakeBody c4conn2.protocol_version c4conn2.address c4conn2.port) ++
        frame requestBody :=
  C4_reinvocation_resends c4conn2 [106, 107] c4conn3 c4_run2

/-- A stream whose next packet declares a 100,000,000-byte body and delivers
nothing. -/
def c5stream : TcpStream :=
  { input := varintEncode 100000000, output := [], writeFuel := none }

theorem varintEncode_100000000 : varintEncode 100000000 = [128, 194, 215, 47] := by
  norm_num [varintEncode_step, varintEncode_small]

/-- C5 is refuted on the modelled (uncapped) reader: the declared length of
100,000,000 with no data fails with `UnexpectedEof`, not `PacketTooLarge`. -/
theorem C5_counterexample :
    readPacket c5stream = .error .unexpectedEof ∧
    readPacket c5stream ≠ .error .packetTooLarge := by
  have hs : c5stream = ⟨[128, 194, 215, 47], [], none⟩ := by
    rw [c5stream, varintEncode_100000000]
  have hrun : readPacket c5stream = .error .unexpectedEof := by
    rw [hs]
    simp [readPacket, varintDecode, varintDecodeAux]
  exact ⟨hrun, by simp [hrun]⟩

/-- C5 amended: `read_packet` imposes no safety cap — every declared length
that exceeds the delivered data (100,000,000 with no data included) fails
with `UnexpectedEof` when the stream ends, and no read ever fails with
`PacketTooLarge`. -/
theorem C5_read_no_cap :
    (∀ (len : Nat) (rest out : List Nat) (fuel : Option Nat),
      len < 2 ^ 32 → rest.length < len →
      readPacket ⟨varintEncode len ++ rest, out, fuel⟩ = .error .unexpectedEof) ∧
    (∀ (s : TcpStream) (e : ProtocolError), readPacket s = .error e →
      e ≠ .packetTooLarge) := by
  constructor
  · intro len rest out fuel hlen hshort
    unfold readPacket
    have hin : (⟨varintEncode len ++ rest, out, fuel⟩ : TcpStream).input
        = varintEncode len ++ rest := rfl
    rw [hin, varintDecode_encode_append len rest hlen]
    dsimp only
    rw [List.drop_left, if_pos hshort]
  · intro s e h
    unfold readPacket at h
    cases hv : varintDecode s.input with
    | error e2 =>
      rw [hv] at h
      injection h with h1
      subst h1
      unfold varintDecode at hv
      rcases varintDecodeAux_error_kinds s.input 0 0 e2 hv with h2 | h2 <;> subst h2 <;> simp
    | ok p =>
      obtain ⟨len, consumed⟩ := p
      rw [hv] at h
      dsimp only at h
      by_cases hl : (s.input.drop consumed).length < len
      · rw [if_pos hl] at h
        injection h with h1
        subst h1
        simp
      · rw [if_neg hl] at h
        cases h

/-- Witness for the amended C5 at the declared length 100,000,000. -/
theorem C5_read_no_cap_witness :
    readPacket ⟨varintEncode 100000000 ++ [], [], none⟩ = .error .unexpectedEof :=
  C5_read_no_cap.1 100000000 [] [] none (by norm_num) (by norm_num)

/-- C9: whatever raw body `status_raw` hands over, `status` feeds exactly
that body to the JSON mapping: a successful decode is returned unchanged,
and a decode failure surfaces as the distinct `InvalidJson` condition, which
is never a protocol-level error. -/
theorem C9_status_json_mapping (fromStr : List Nat → Except String StatusResponse)
    (c c2 : StatusConnection) (body : List Nat)
    (h : c.status_raw = (.ok body, c2)) :
    (∀ r, fromStr body = .ok r → c.status fromStr = (.ok r, c2)) ∧
    (∀ msg, fromStr body = .error msg →
      c.status fromStr = (.error (.server (.invalidJson msg)), c2)) ∧
    (∀ msg ctx pe, AppError.server (.invalidJson msg) ≠ .protocol ctx pe) := by
  refine ⟨?_, ?_, fun msg ctx pe => by simp⟩
  · intro r hr
    unfold StatusConnection.status
    rw [h]
    dsimp only
    rw [hr]
  · intro msg hmsg
    unfold StatusConnection.status
    rw [h]
    dsimp only
    rw [hmsg]

/-- A connection delivering the response body `[104, 105]`. -/
def c9conn : StatusConnection :=
  { stream := { input := [4, 0, 2, 104, 105], output := [], writeFuel := none },
    protocol_version := 1, address := "a", port := 0 }

/-- The state `c9conn` reaches after its exchange. -/
def c9conn2 : StatusConnection :=
  { stream := { input := [], output := [7, 0, 1, 1, 97, 0, 0, 1, 1, 0], writeFuel := none },
    protocol_version := 1, address := "a", port := 0 }

theorem c9_run : c9conn.status_raw = (.ok [104, 105], c9conn2) := by
  unfold StatusConnection.status_raw
  simp [c9conn, c9conn2, writePacket, writeBytes, frame_handshake_1a0, frame_request,
    readPacket, varintDecode, varintDecodeAux, responseDeserialize]

/-- A structured status used as the concrete decode result. -/
def c9resp : StatusResponse :=
  { version := ⟨"x", 0⟩, players := ⟨0, 0, none⟩, description := .Simple "",
    favicon := none, modinfo := none }

/-- A JSON mapping accepting exactly the body `[104, 105]`. -/
def c9fromStr : List Nat → Except String StatusResponse :=
  fun bs => if bs = [104, 105] then .ok c9resp else .error "invalid"

/-- Witness for C9 on the concrete run of `c9conn`. -/
theorem C9_status_json_mapping_witness :
    c9conn.status c9fromStr = (.ok c9resp, c9conn2) :=
  (C9_status_json_mapping c9fromStr c9conn c9conn2 [104, 105] c9_run).1 c9resp (by decide)
